import Mathlib

/-!
# Formal model of the RAG movie recommender backend

A shallow embedding of `src/src/server.ts` of the repository
`ASidhu20/Rag-Based-Movie-recommendation-System`.

Modelling choices:

* Similarity scores and cosine distances are rationals (`ℚ`); the claims under
  study concern thresholding, ordering and frame conditions, none of which
  depend on floating-point rounding.
* External services appear as parameters: the embedding provider is a function
  `String → Except String (List ℚ)`, the reasoning provider's response enters
  the model through the outcome of `JSON.parse` on its text
  (`ParseOutcome`), and the vector store is a list of rows.  With the query
  vector of a request fixed, a stored row is characterised by its cosine
  distance `m.embedding <=> query_embedding`, held in the `dist` field.
* The `match_movies` SQL function (defined in the repository, in the SQL
  block of `server.ts` and in the README) is translated as
  filter-by-threshold, sort by ascending distance, limit.
* JavaScript truthiness and dynamic typing are translated explicitly where
  they matter; each definition's doc comment records the line numbers of the
  source it embeds.
-/

namespace RagRec

/-- The `metadata` record of a movie (`z.record(z.string(), z.any())`,
server.ts line 74), modelled as an association list of string keys and
string values. -/
abbrev Metadata := List (String × String)

/-- `JSON.stringify` applied to the metadata object, as performed on
server.ts line 105. -/
def stringifyMetadata (m : Metadata) : String :=
  "\x7b" ++
    String.intercalate ","
      (m.map fun kv => "\"" ++ kv.1 ++ "\":\"" ++ kv.2 ++ "\"") ++
  "\x7d"

/-- A movie as validated by `MovieSchema` (server.ts lines 68-75): `title`
required, `year` optional, `genres`/`cast` default to `[]`, `plot` defaults
to `""`, `metadata` defaults to the empty record. -/
structure Movie where
  title : String
  year : Option Int
  genres : List String
  cast : List String
  plot : String
  metadata : Metadata
deriving DecidableEq, Repr

/-- `movieTextForEmbedding` (server.ts lines 98-107).  JavaScript truthiness
is translated explicitly: `m.year ?` is false for an absent year and for
year `0`; `m.genres.length ?` and `m.cast.length ?` are false for empty
arrays; `m.plot ?` is false for the empty string; `m.metadata ?` tests an
object, which is ALWAYS truthy in JavaScript, so the `Metadata:` line is
included even when the record is empty.  `.filter(Boolean)` drops the empty
strings produced by the false branches. -/
def movieTextForEmbedding (m : Movie) : String :=
  String.intercalate "\n"
    (([ "Title: " ++ m.title,
        (match m.year with
         | some y => if y ≠ 0 then "Year: " ++ toString y else ""
         | none => ""),
        if m.genres.length ≠ 0 then "Genres: " ++ String.intercalate ", " m.genres else "",
        if m.cast.length ≠ 0 then "Cast: " ++ String.intercalate ", " m.cast else "",
        if m.plot ≠ "" then "Plot: " ++ m.plot else "",
        "Metadata: " ++ stringifyMetadata m.metadata
      ]).filter (fun s => s != ""))

/-- `joinAnswers` (server.ts lines 89-96): the preference-profile text built
from the questionnaire answers. -/
def joinAnswers (answers : List String) : String :=
  String.intercalate "\n"
    ([ "You are building a movie preference profile from questionnaire answers.",
       "Summarize consistent tastes implicitly. Answers:" ] ++
     answers.mapIdx (fun i a => "Q" ++ toString (i + 1) ++ ": " ++ a))

/-- A row of the `public.movies` table as seen by one `match_movies` query
(table DDL in the SQL block of server.ts, lines 234-243).  With the query
vector of the request fixed, the only thing the query reads from the stored
embedding is the cosine distance `m.embedding <=> query_embedding`, held
here in `dist`. -/
structure StoredMovie where
  id : String
  title : String
  year : Option Int
  genres : List String
  plot : String
  metadata : Metadata
  dist : ℚ
deriving DecidableEq, Repr

/-- A row returned by the `match_movies` RPC (its `returns table` clause,
server.ts lines 259-267): the displayable columns plus the cosine-similarity
`score`. -/
structure MatchRow where
  id : String
  title : String
  year : Option Int
  genres : List String
  plot : String
  metadata : Metadata
  score : ℚ
deriving DecidableEq, Repr

/-- The `select` list of `match_movies` (server.ts lines 269-276):
`score = 1 - (m.embedding <=> query_embedding)`. -/
def toMatchRow (m : StoredMovie) : MatchRow :=
  { id := m.id, title := m.title, year := m.year, genres := m.genres,
    plot := m.plot, metadata := m.metadata, score := 1 - m.dist }

/-- The `where` clause of `match_movies` (server.ts line 278):
`1 - (m.embedding <=> query_embedding) >= sim_threshold`. -/
def meetsThreshold (thr : ℚ) (m : StoredMovie) : Bool :=
  decide (thr ≤ 1 - m.dist)

/-- The `order by m.embedding <=> query_embedding` relation of `match_movies`
(server.ts line 279): ascending cosine distance. -/
def distLE (a b : StoredMovie) : Prop := a.dist ≤ b.dist

instance : DecidableRel distLE := fun a b =>
  decidable_of_iff (a.dist ≤ b.dist) Iff.rfl

instance : IsTotal StoredMovie distLE := ⟨fun a b => le_total a.dist b.dist⟩

instance : IsTrans StoredMovie distLE := ⟨fun _ _ _ h1 h2 => le_trans h1 h2⟩

/-- The `match_movies` SQL function (server.ts lines 254-281): keep the rows
whose similarity meets `sim_threshold`, order them by ascending cosine
distance, truncate to `match_count`, and project each row to the returned
columns with its similarity score. -/
def match_movies (store : List StoredMovie) (match_count : Nat) (sim_threshold : ℚ) :
    List MatchRow :=
  ((((store.filter (meetsThreshold sim_threshold)).insertionSort distLE)).take
      match_count).map toMatchRow

/-- The app-side pagination window (server.ts line 173):
`(data as any[]).slice(offset, offset + topN)` applied to the result of the
`match_movies` RPC called with `match_count = topN + offset`
(server.ts lines 165-169). -/
def slicedResults (store : List StoredMovie) (topN offset : Nat) (thr : ℚ) :
    List MatchRow :=
  ((match_movies store (topN + offset) thr).drop offset).take topN

/-- JavaScript's `String.prototype.toLowerCase` (used on server.ts line
213), modelled as a per-character lowercase map — the same function as
`String.toLower`, written so that it computes by kernel reduction. -/
def jsToLower (s : String) : String := String.mk (s.data.map Char.toLower)

/-- One entry of the JSON array the reasoning provider is asked for
(server.ts line 197): `title` and `reason` may each be absent in what the
model actually returns, so both are optional. -/
structure ParsedEntry where
  title : Option String
  reason : Option String
deriving DecidableEq, Repr

/-- A candidate of the rerank branch: `{ ...r, why }` (server.ts line 214)
spreads every column of the `match_movies` row and adds `why`. -/
structure RerankedRow where
  id : String
  title : String
  year : Option Int
  genres : List String
  plot : String
  metadata : Metadata
  score : ℚ
  why : Option String
deriving DecidableEq, Repr

/-- The rerank merge (server.ts lines 212-215): for each candidate, the first
parsed entry whose `title` matches case-insensitively supplies `why`
(`found?.reason ?? null`); an entry with no `title` never matches
(`x.title?.toLowerCase()` is `undefined` there, never equal to a string). -/
def withReason (sliced : List MatchRow) (reranked : List ParsedEntry) :
    List RerankedRow :=
  sliced.map fun r =>
    let found := reranked.find? fun x =>
      match x.title with
      | some t => jsToLower t == jsToLower r.title
      | none => false
    { id := r.id, title := r.title, year := r.year, genres := r.genres,
      plot := r.plot, metadata := r.metadata, score := r.score,
      why := found.bind ParsedEntry.reason }

/-- A candidate of the non-rerank branch (server.ts lines 178-186): the row
is projected to exactly `id`, `title`, `year`, `genres`, `score`, `why`,
`metadata` — the stored `plot` column is dropped.  `match_movies` rows have
no `why` column, so `r.why ?? null` is always `null`. -/
structure Candidate where
  id : String
  title : String
  year : Option Int
  genres : List String
  score : ℚ
  why : Option String
  metadata : Metadata
deriving DecidableEq, Repr

/-- The projection of server.ts lines 178-186. -/
def toCandidate (r : MatchRow) : Candidate :=
  { id := r.id, title := r.title, year := r.year, genres := r.genres,
    score := r.score, why := none, metadata := r.metadata }

/-- The three runtime outcomes of `JSON.parse(text || '[]')` on server.ts
line 209: the parse throws (caught, `reranked` stays `[]`); it yields a
JavaScript array (modelled as a list of entries); or it yields a valid JSON
value that is not an array (a number, string, object or null), in which case
`reranked.find` inside the `map` callback on line 213 is not a function and
throws a `TypeError` for every candidate. -/
inductive ParseOutcome where
  | failure : ParseOutcome
  | array : List ParsedEntry → ParseOutcome
  | nonArray : ParseOutcome
deriving DecidableEq, Repr

/-- The two response shapes of the `/api/recommend` handler: the plain
projection of the non-rerank branch (line 177) and the annotated rows of the
rerank branch (line 217). -/
inductive RecommendResponse where
  | plain : List Candidate → RecommendResponse
  | annotated : List RerankedRow → RecommendResponse
deriving DecidableEq, Repr

/-- The `/api/recommend` handler from the RPC result on (server.ts lines
172-221), for a request that reached the pagination step: slice the RPC
result, and either return the plain projection (`!rerank`, lines 176-188) or
run the rerank merge.  In the rerank branch the outcome of `JSON.parse` on
the reasoning text decides what happens: a thrown parse is caught and the
merge runs with `reranked = []`; an array runs the merge with it; a
non-array JSON value makes `reranked.find` throw a `TypeError` inside
`sliced.map` — the outer `catch` (lines 218-221) turns that into a 500
error — unless `sliced` is empty, in which case the callback never runs.
Upstream embedding/RPC failures are aborted before this point and are not
modelled here. -/
def recommendHandler (store : List StoredMovie) (topN offset : Nat) (thr : ℚ)
    (rerank : Bool) (outcome : ParseOutcome) : Except String RecommendResponse :=
  let sliced := slicedResults store topN offset thr
  if !rerank then
    .ok (.plain (sliced.map toCandidate))
  else
    match outcome with
    | .failure => .ok (.annotated (withReason sliced []))
    | .array reranked => .ok (.annotated (withReason sliced reranked))
    | .nonArray =>
        if sliced.isEmpty then .ok (.annotated [])
        else .error "reranked.find is not a function"

/-- A storage row assembled by the ingest loop (server.ts lines 131-135):
the validated movie fields plus the computed embedding.  No `id` field: the
pass-through `if (m.id) row.id = m.id` on line 136 is commented out, and
`MovieSchema` has no `id` member. -/
structure IngestRow where
  title : String
  year : Option Int
  genres : List String
  cast : List String
  plot : String
  metadata : Metadata
  embedding : List ℚ
deriving DecidableEq, Repr

/-- The sequential embedding loop of the ingest handler (server.ts lines
127-138): embed each movie's canonical text in input order; the first
provider failure aborts the whole computation. -/
def computeRows (embed : String → Except String (List ℚ)) :
    List Movie → Except String (List IngestRow)
  | [] => .ok []
  | m :: rest =>
    match embed (movieTextForEmbedding m) with
    | .error e => .error e
    | .ok vector =>
      match computeRows embed rest with
      | .error e => .error e
      | .ok rows =>
        .ok ({ title := m.title, year := m.year, genres := m.genres,
               cast := m.cast, plot := m.plot, metadata := m.metadata,
               embedding := vector } :: rows)

/-- The observable state of the `public.movies` table: its rows with their
store-generated identifiers, plus the generator state for fresh identifiers
(modelling `gen_random_uuid()` with a counter). -/
structure MovieStore where
  rows : List (Nat × IngestRow)
  nextId : Nat
deriving DecidableEq, Repr

/-- Fresh identifiers for a batch of inserted rows. -/
def assignIds (n : Nat) : List IngestRow → List (Nat × IngestRow)
  | [] => []
  | r :: rs => (n, r) :: assignIds (n + 1) rs

/-- Modelled from the spec: the Vector Store `upsert` capability (§6,
"keyed by identifier when present, else treated as new inserts") together
with the repository's table DDL (`id uuid primary key default
gen_random_uuid()`, server.ts line 236) — the store itself is an external
collaborator (Supabase/Postgres).  The rows assembled by the ingest handler
never carry an identifier (line 136 is commented out), so every row of every
batch is inserted as a new row with a fresh identifier; the call returns the
`id, title` pairs of the affected rows (server.ts line 140). -/
def upsert (store : MovieStore) (rows : List IngestRow) :
    MovieStore × List (Nat × String) :=
  let affected := assignIds store.nextId rows
  ({ rows := store.rows ++ affected, nextId := store.nextId + rows.length },
   affected.map fun p => (p.1, p.2.title))

/-- The success body of the ingest handler (server.ts line 143). -/
structure IngestResponse where
  inserted : Nat
  ids : List Nat
deriving DecidableEq, Repr

/-- The `/api/ingest/movies` handler (server.ts lines 125-147): embed every
movie sequentially; if any embedding call fails the `catch` returns a 500
error and the upsert is never issued (store unchanged); otherwise the rows
are submitted as a single upsert batch and the affected count and ids are
returned. -/
def ingestMovies (embed : String → Except String (List ℚ)) (store : MovieStore)
    (movies : List Movie) : MovieStore × Except String IngestResponse :=
  match computeRows embed movies with
  | .error e => (store, .error e)
  | .ok rows =>
    let res := upsert store rows
    (res.1, .ok { inserted := res.2.length, ids := res.2.map Prod.fst })

/-! ## Theorems -/

/-- Claim C1: for every paginated candidate sequence and every parsed rerank
list, the rerank merge returns a sequence of the same length with the same
candidates in the same order — each candidate's `id`, `title`, `year`,
`genres`, `score`, `metadata` (and `plot`) unchanged; the only field it ever
sets is `why`. -/
theorem rerank_merge_frame (sliced : List MatchRow) (reranked : List ParsedEntry) :
    (withReason sliced reranked).length = sliced.length ∧
    ∀ i : Nat,
      ((withReason sliced reranked)[i]?).map RerankedRow.id
          = (sliced[i]?).map MatchRow.id ∧
      ((withReason sliced reranked)[i]?).map RerankedRow.title
          = (sliced[i]?).map MatchRow.title ∧
      ((withReason sliced reranked)[i]?).map RerankedRow.year
          = (sliced[i]?).map MatchRow.year ∧
      ((withReason sliced reranked)[i]?).map RerankedRow.genres
          = (sliced[i]?).map MatchRow.genres ∧
      ((withReason sliced reranked)[i]?).map RerankedRow.score
          = (sliced[i]?).map MatchRow.score ∧
      ((withReason sliced reranked)[i]?).map RerankedRow.metadata
          = (sliced[i]?).map MatchRow.metadata ∧
      ((withReason sliced reranked)[i]?).map RerankedRow.plot
          = (sliced[i]?).map MatchRow.plot := by
  refine ⟨by simp [withReason], fun i => ?_⟩
  simp only [withReason, List.getElem?_map]
  cases sliced[i]? <;> simp

/-- Claim C3: every candidate returned by the retrieval pipeline has
`score ≥ threshold` — the `match_movies` filter admits only rows meeting the
threshold, and the pagination slice only removes candidates. -/
theorem retrieval_respects_threshold (store : List StoredMovie)
    (topN offset : Nat) (thr : ℚ) (c : MatchRow)
    (hc : c ∈ slicedResults store topN offset thr) : thr ≤ c.score := by
  simp only [slicedResults] at hc
  have h1 : c ∈ match_movies store (topN + offset) thr :=
    (List.drop_sublist _ _).subset ((List.take_sublist _ _).subset hc)
  simp only [match_movies, List.mem_map] at h1
  obtain ⟨a, ha, rfl⟩ := h1
  have ha2 : a ∈ (store.filter (meetsThreshold thr)).insertionSort distLE :=
    (List.take_sublist _ _).subset ha
  have ha3 : a ∈ store.filter (meetsThreshold thr) :=
    (List.perm_insertionSort distLE _).mem_iff.mp ha2
  have hpred : meetsThreshold thr a = true := (List.mem_filter.mp ha3).2
  have : thr ≤ 1 - a.dist := of_decide_eq_true hpred
  simpa [toMatchRow] using this

/-- A concrete stored row used by the witnesses below. -/
def wStoredRow : StoredMovie :=
  { id := "m1", title := "Inception", year := some 2010,
    genres := ["Sci-Fi"], plot := "dream heist", metadata := [], dist := 0 }

/-- Witness for `retrieval_respects_threshold` at a concrete one-row store
and threshold 1/4. -/
theorem retrieval_respects_threshold_witness :
    ((1 : ℚ) / 4) ≤ (toMatchRow wStoredRow).score :=
  retrieval_respects_threshold [wStoredRow] 1 0 (1 / 4) (toMatchRow wStoredRow)
    (by norm_num [slicedResults, match_movies, meetsThreshold, wStoredRow,
      List.filter_cons])

/-- Claim C4: the returned candidate sequence is non-increasing in `score`:
`match_movies` orders by ascending cosine distance, hence by descending
score, and the pagination slice preserves that order. -/
theorem retrieval_scores_non_increasing (store : List StoredMovie)
    (topN offset : Nat) (thr : ℚ) :
    (slicedResults store topN offset thr).Pairwise
      (fun a b => b.score ≤ a.score) := by
  have hs : List.Pairwise distLE
      ((store.filter (meetsThreshold thr)).insertionSort distLE) :=
    List.sorted_insertionSort distLE _
  have h1 : List.Pairwise distLE
      (((store.filter (meetsThreshold thr)).insertionSort distLE).take
        (topN + offset)) :=
    List.Pairwise.sublist (List.take_sublist _ _) hs
  have h2 : (match_movies store (topN + offset) thr).Pairwise
      (fun a b => b.score ≤ a.score) := by
    simp only [match_movies]
    refine List.pairwise_map.mpr (h1.imp ?_)
    intro a b hab
    simpa [toMatchRow] using sub_le_sub_left hab 1
  simp only [slicedResults]
  exact List.Pairwise.sublist (List.take_sublist _ _)
    (List.Pairwise.sublist (List.drop_sublist _ _) h2)

/-- Claim C2: the store is queried for `topN + offset` rows above the
threshold and the handler slices off the first `offset`, so the number of
returned candidates is `min topN (max 0 (available_above_threshold - offset))`
(natural subtraction supplies the `max 0`); and whenever no more than
`offset` rows meet the threshold, the request returns an empty list as a
non-error success, for either value of the rerank flag and any parse
outcome. -/
theorem pagination_window_count (store : List StoredMovie)
    (topN offset : Nat) (thr : ℚ) :
    (slicedResults store topN offset thr).length
      = min topN ((store.filter (meetsThreshold thr)).length - offset) ∧
    ∀ (rerank : Bool) (outcome : ParseOutcome),
      (store.filter (meetsThreshold thr)).length ≤ offset →
      recommendHandler store topN offset thr rerank outcome
        = .ok (if rerank then .annotated [] else .plain []) := by
  have hlen : (slicedResults store topN offset thr).length
      = min topN ((store.filter (meetsThreshold thr)).length - offset) := by
    have hperm :=
      (List.perm_insertionSort distLE (store.filter (meetsThreshold thr))).length_eq
    simp only [slicedResults, match_movies, List.length_take, List.length_drop,
      List.length_map, hperm]
    omega
  refine ⟨hlen, fun rerank outcome hA => ?_⟩
  have hnil : slicedResults store topN offset thr = [] := by
    have : (slicedResults store topN offset thr).length = 0 := by omega
    exact List.length_eq_zero.mp this
  cases rerank <;> cases outcome <;>
    simp [recommendHandler, hnil, withReason]

/-- Witness for `pagination_window_count` on an empty store with offset 1:
the window is empty and the request succeeds. -/
theorem pagination_window_count_witness :
    recommendHandler [] 5 1 0 false ParseOutcome.failure
      = .ok (.plain []) := by
  simpa using (pagination_window_count [] 5 1 0).2 false ParseOutcome.failure
    (by simp)

/-- Claim C5 (failing input): when the reasoning provider's text is valid
JSON that is not an array — so parsing it as the structured
`title`/`reason` list fails — and the paginated candidate list is
non-empty, the request does NOT succeed: `reranked.find` throws a
`TypeError` that the outer catch turns into a 500 error, contradicting the
claim that no parse failure is ever propagated as a request failure. -/
theorem rerank_nonarray_parse_aborts :
    recommendHandler [wStoredRow] 1 0 0 true ParseOutcome.nonArray
      = .error "reranked.find is not a function" := by
  have hsl : slicedResults [wStoredRow] 1 0 0 = [toMatchRow wStoredRow] := by
    norm_num [slicedResults, match_movies, meetsThreshold, wStoredRow,
      List.filter_cons]
  simp [recommendHandler, hsl]

/-- Claim C9: the field set of each returned candidate depends on the rerank
flag.  With `rerank = false` the handler succeeds with every candidate
projected through `toCandidate` — whose result type `Candidate` has exactly
the fields `id`, `title`, `year`, `genres`, `score`, `why`, `metadata` and
no `plot`.  With `rerank = true` and a parsed list, every candidate keeps
all stored fields: the `plot` (and the rest) of the merged row at every
position equals that of the paginated row. -/
theorem candidate_fields_by_rerank_flag (store : List StoredMovie)
    (topN offset : Nat) (thr : ℚ) (reranked : List ParsedEntry) :
    recommendHandler store topN offset thr false ParseOutcome.failure
      = .ok (.plain ((slicedResults store topN offset thr).map toCandidate)) ∧
    recommendHandler store topN offset thr true (.array reranked)
      = .ok (.annotated (withReason (slicedResults store topN offset thr) reranked)) ∧
    ∀ i : Nat,
      ((withReason (slicedResults store topN offset thr) reranked)[i]?).map
          RerankedRow.plot
        = ((slicedResults store topN offset thr)[i]?).map MatchRow.plot := by
  refine ⟨by simp [recommendHandler, toCandidate], by simp [recommendHandler],
    fun i => ?_⟩
  simp only [withReason, List.getElem?_map]
  cases (slicedResults store topN offset thr)[i]? <;> simp

/-- If the embedding provider fails for some record of the batch, the
sequential loop of `computeRows` ends in an error (the first failure it
reaches aborts it). -/
theorem computeRows_error_of_mem (embed : String → Except String (List ℚ))
    {m : Movie} {e : String}
    (hfail : embed (movieTextForEmbedding m) = .error e) :
    ∀ movies : List Movie, m ∈ movies →
      ∃ msg, computeRows embed movies = .error msg := by
  intro movies
  induction movies with
  | nil => intro hm; cases hm
  | cons m0 rest ih =>
    intro hm
    cases hc : embed (movieTextForEmbedding m0) with
    | error msg => exact ⟨msg, by simp [computeRows, hc]⟩
    | ok v =>
      have hr : m ∈ rest := by
        rcases List.mem_cons.mp hm with h0 | hr
        · subst h0; rw [hfail] at hc; cases hc
        · exact hr
      obtain ⟨msg, hmsg⟩ := ih hr
      exact ⟨msg, by simp [computeRows, hc, hmsg]⟩

/-- Claim C6: if the embedding provider fails for any single record of an
ingestion batch, the whole ingestion call fails with a single operation
failure and the upsert is never issued — the store state is unchanged. -/
theorem ingest_aborts_on_embed_failure (embed : String → Except String (List ℚ))
    (store : MovieStore) (movies : List Movie) (m : Movie) (hm : m ∈ movies)
    (e : String) (hfail : embed (movieTextForEmbedding m) = .error e) :
    (ingestMovies embed store movies).1 = store ∧
    ∃ msg, (ingestMovies embed store movies).2 = .error msg := by
  obtain ⟨msg, hmsg⟩ := computeRows_error_of_mem embed hfail movies hm
  exact ⟨by simp [ingestMovies, hmsg], msg, by simp [ingestMovies, hmsg]⟩

/-- An embedding provider that always fails, and one that always succeeds
with a fixed vector; concrete inputs for the ingestion witnesses. -/
def embedFail : String → Except String (List ℚ) := fun _ => .error "quota exceeded"

def embedConst : String → Except String (List ℚ) := fun _ => .ok [0]

def emptyStore : MovieStore := { rows := [], nextId := 0 }

def mvInception : Movie :=
  { title := "Inception", year := some 2010, genres := ["Sci-Fi"],
    cast := [], plot := "dream heist", metadata := [] }

def rowInception : IngestRow :=
  { title := "Inception", year := some 2010, genres := ["Sci-Fi"],
    cast := [], plot := "dream heist", metadata := [], embedding := [0] }

/-- Witness for `ingest_aborts_on_embed_failure`: a one-movie batch against
a failing provider leaves the empty store empty and reports an error. -/
theorem ingest_aborts_on_embed_failure_witness :
    (ingestMovies embedFail emptyStore [mvInception]).1 = emptyStore ∧
    ∃ msg, (ingestMovies embedFail emptyStore [mvInception]).2 = .error msg :=
  ingest_aborts_on_embed_failure embedFail emptyStore [mvInception] mvInception
    (List.mem_singleton.mpr rfl) "quota exceeded" rfl

/-- The store after ingesting the one-movie batch once, and after ingesting
the same batch a second time. -/
def storeAfterOnce : MovieStore := (ingestMovies embedConst emptyStore [mvInception]).1

def storeAfterTwice : MovieStore :=
  (ingestMovies embedConst storeAfterOnce [mvInception]).1

/-- Claim C7 (counterexample): running the same one-movie batch twice does
NOT leave the store in the state produced by running it once — the ingest
rows never carry an identifier (the pass-through is commented out and the
request schema has none), so the second run inserts a duplicate row instead
of overwriting: two rows after the second run versus one after the first. -/
theorem ingest_not_idempotent_counterexample :
    storeAfterOnce.rows.length = 1 ∧ storeAfterTwice.rows.length = 2 ∧
    storeAfterTwice ≠ storeAfterOnce := by
  refine ⟨rfl, rfl, fun h => ?_⟩
  have hlen := congrArg (fun s => s.rows.length) h
  simp only at hlen
  rw [show storeAfterTwice.rows.length = 2 from rfl,
    show storeAfterOnce.rows.length = 1 from rfl] at hlen
  cases hlen

/-- Claim C7 (amended): ingestion never supplies identifiers, so every
successfully embedded batch is appended to the store as fresh rows — each
run grows the store by the batch size, and running the same batch twice
grows it twice; ingestion is not idempotent and never overwrites. -/
theorem ingest_appends_fresh_rows (embed : String → Except String (List ℚ))
    (store : MovieStore) (movies : List Movie) (rows : List IngestRow)
    (h : computeRows embed movies = .ok rows) :
    (ingestMovies embed store movies).1.rows.length
        = store.rows.length + rows.length ∧
    (ingestMovies embed (ingestMovies embed store movies).1 movies).1.rows.length
        = store.rows.length + rows.length + rows.length := by
  have hassign : ∀ (n : Nat) (rs : List IngestRow),
      (assignIds n rs).length = rs.length := by
    intro n rs
    induction rs generalizing n with
    | nil => rfl
    | cons r rs ih => simp [assignIds, ih]
  constructor
  · simp [ingestMovies, h, upsert, hassign]
  · simp [ingestMovies, h, upsert, hassign]
    omega

/-- Witness for `ingest_appends_fresh_rows` on the concrete one-movie
batch: one row after the first run, two after the second. -/
theorem ingest_appends_fresh_rows_witness :
    (ingestMovies embedConst emptyStore [mvInception]).1.rows.length
        = emptyStore.rows.length + [rowInception].length ∧
    (ingestMovies embedConst
        (ingestMovies embedConst emptyStore [mvInception]).1
        [mvInception]).1.rows.length
      = emptyStore.rows.length + [rowInception].length + [rowInception].length :=
  ingest_appends_fresh_rows embedConst emptyStore [mvInception] [rowInception] rfl

/-- Claim C8 (failing input): on a movie whose metadata record is empty, the
canonical text still carries a metadata line — `m.metadata ?` tests an
object, which is always truthy in JavaScript, so `movieTextForEmbedding`
serializes the empty record instead of omitting the line. -/
theorem metadata_line_always_included :
    movieTextForEmbedding
      { title := "Inception", year := none, genres := [], cast := [],
        plot := "", metadata := [] }
      = "Title: Inception\nMetadata: \x7b\x7d" := rfl

/-- Claim C10: candidates of the paginated list whose titles are
case-insensitively equal receive the same explanation — each candidate is
matched to the first parsed entry with its lowercased title, so two
positions with equal lowercased titles get equal `why` values. -/
theorem duplicate_titles_same_why (sliced : List MatchRow)
    (reranked : List ParsedEntry) (i j : Nat)
    (hij : (sliced[i]?).map (fun r => jsToLower r.title)
        = (sliced[j]?).map (fun r => jsToLower r.title)) :
    ((withReason sliced reranked)[i]?).map RerankedRow.why
      = ((withReason sliced reranked)[j]?).map RerankedRow.why := by
  simp only [withReason, List.getElem?_map]
  cases hi : sliced[i]? with
  | none =>
    cases hj : sliced[j]? with
    | none => simp
    | some r2 => rw [hi, hj] at hij; cases hij
  | some r1 =>
    cases hj : sliced[j]? with
    | none => rw [hi, hj] at hij; cases hij
    | some r2 =>
      rw [hi, hj] at hij
      simp only [Option.map_some', Option.some.injEq] at hij
      simp only [Option.map_some']
      simp only [hij]

/-- Two candidates with case-insensitively equal titles and a parsed entry
matching them, for the `duplicate_titles_same_why` witness. -/
def wRowUpper : MatchRow :=
  { id := "a", title := "INCEPTION", year := some 2010, genres := [],
    plot := "", metadata := [], score := 1 }

def wRowLower : MatchRow :=
  { id := "b", title := "inception", year := none, genres := [],
    plot := "", metadata := [], score := 1 }

def wEntries : List ParsedEntry :=
  [{ title := some "Inception", reason := some "mind-bending" }]

/-- Witness for `duplicate_titles_same_why` at two concrete candidates whose
titles differ only in case. -/
theorem duplicate_titles_same_why_witness :
    ((withReason [wRowUpper, wRowLower] wEntries)[0]?).map RerankedRow.why
      = ((withReason [wRowUpper, wRowLower] wEntries)[1]?).map RerankedRow.why :=
  duplicate_titles_same_why [wRowUpper, wRowLower] wEntries 0 1 (by decide)

end RagRec
